import Mathlib

/-!
# Verification of the NBA betting-report pipeline

Shallow embedding of the core of `src/betting_app.py` (classes `DataClient`
and `BettingModel`).  Python floats are modelled as exact rationals (`ℚ`),
Python ints as `ℤ`/`ℕ`, dictionaries as association lists (`List (k × v)`,
later writes shadowing earlier ones where insertion order matters), and
fallible HTTP fetches as `Except String` values supplied as parameters.
Randomized Monte-Carlo sampling and the `math.erf`-based normal CDF are
modelled as oracle functions, constrained only by range hypotheses where a
theorem needs them.  Python's `round` (round-half-to-even) is embedded
explicitly as `rhalf_even` / `round1`.
-/

/-! ## Rounding: Python's banker's rounding -/

/-- Python `round(y)` for a rational `y`: round to the nearest integer,
ties going to the even integer. -/
def rhalf_even (y : ℚ) : ℤ :=
  if y - y.floor < 1/2 then y.floor
  else if 1/2 < y - y.floor then y.floor + 1
  else if Even y.floor then y.floor else y.floor + 1

theorem rat_floor_eq_floor (y : ℚ) : y.floor = ⌊y⌋ :=
  (Rat.floor_def' y).trans Rat.floor_def.symm

/-- Python `round(x, 1)`: round to the nearest tenth, ties to even. -/
def round1 (x : ℚ) : ℚ := (rhalf_even (10 * x) : ℚ) / 10

theorem rhalf_even_le (y : ℚ) : ⌊y⌋ ≤ rhalf_even y ∧ rhalf_even y ≤ ⌊y⌋ + 1 := by
  unfold rhalf_even
  rw [rat_floor_eq_floor]
  split_ifs <;> omega

theorem rhalf_even_mono {y z : ℚ} (h : y ≤ z) : rhalf_even y ≤ rhalf_even z := by
  rcases le_or_lt (⌊y⌋ + 1) ⌊z⌋ with hf | hf
  · calc rhalf_even y ≤ ⌊y⌋ + 1 := (rhalf_even_le y).2
      _ ≤ ⌊z⌋ := hf
      _ ≤ rhalf_even z := (rhalf_even_le z).1
  · have hle : ⌊y⌋ ≤ ⌊z⌋ := Int.floor_le_floor h
    have heq : ⌊y⌋ = ⌊z⌋ := by omega
    have hfr : y - ⌊y⌋ ≤ z - ⌊z⌋ := by rw [← heq]; linarith
    unfold rhalf_even
    simp only [rat_floor_eq_floor, ← heq]
    split_ifs <;> first | omega | linarith

theorem round1_mono {x y : ℚ} (h : x ≤ y) : round1 x ≤ round1 y := by
  unfold round1
  have := rhalf_even_mono (by linarith : 10 * x ≤ 10 * y)
  have hc : ((rhalf_even (10 * x) : ℤ) : ℚ) ≤ ((rhalf_even (10 * y) : ℤ) : ℚ) := by
    exact_mod_cast this
  linarith

theorem round1_one : round1 1 = 1 := by
  norm_num [round1, rhalf_even, rat_floor_eq_floor]

theorem round1_five : round1 5 = 5 := by
  norm_num [round1, rhalf_even, rat_floor_eq_floor]

/-! ## Edge & market analysis primitives (`BettingModel` statics) -/

/-- `BettingModel.implied_probability_from_american`. -/
def implied_probability_from_american (odds : ℤ) : ℚ :=
  if odds < 0 then (-(odds : ℚ)) / (-(odds : ℚ) + 100)
  else 100 / ((odds : ℚ) + 100)

/-- `BettingModel.kelly_units`:
`round(min(5.0, max(1.0, edge * 40.0)), 1)` when the edge is positive. -/
def kelly_units (projected_p implied_p : ℚ) : ℚ :=
  let edge := projected_p - implied_p
  if edge ≤ 0 then 0
  else round1 (min 5 (max 1 (edge * 40)))

theorem implied_probability_pos (o : ℤ) : 0 < implied_probability_from_american o := by
  unfold implied_probability_from_american
  split_ifs with h
  · have : (0 : ℚ) < -(o : ℚ) := by
      have : (o : ℚ) < 0 := by exact_mod_cast h
      linarith
    positivity
  · have : (0 : ℚ) ≤ (o : ℚ) := by
      push_neg at h
      exact_mod_cast h
    positivity

theorem implied_probability_le_one (o : ℤ) : implied_probability_from_american o ≤ 1 := by
  unfold implied_probability_from_american
  split_ifs with h
  · have ho : (o : ℚ) < 0 := by exact_mod_cast h
    rw [div_le_one (by linarith)]
    linarith
  · have ho : (0 : ℚ) ≤ (o : ℚ) := by
      push_neg at h
      exact_mod_cast h
    rw [div_le_one (by linarith)]
    linarith

theorem implied_probability_lt_one {o : ℤ} (h : o ≠ 0) :
    implied_probability_from_american o < 1 := by
  unfold implied_probability_from_american
  split_ifs with hneg
  · have ho : (o : ℚ) < 0 := by exact_mod_cast hneg
    rw [div_lt_one (by linarith)]
    linarith
  · have ho : (0 : ℚ) ≤ (o : ℚ) := by
      push_neg at hneg
      exact_mod_cast hneg
    have ho' : (0 : ℚ) < (o : ℚ) := by
      rcases lt_or_eq_of_le ho with h' | h'
      · exact h'
      · exact absurd (by exact_mod_cast h'.symm) h
    rw [div_lt_one (by linarith)]
    linarith

/-- C1 (amended): branch formulas for `implied_probability_from_american`,
the value is always in `(0, 1]`, strictly below `1` exactly when `o ≠ 0`,
and the two quoted prices evaluate to the quoted exact rationals. -/
theorem implied_probability_from_american_spec (o : ℤ) :
    (o < 0 → implied_probability_from_american o = (|o| : ℚ) / ((|o| : ℚ) + 100)) ∧
    (0 ≤ o → implied_probability_from_american o = 100 / ((o : ℚ) + 100)) ∧
    0 < implied_probability_from_american o ∧
    implied_probability_from_american o ≤ 1 ∧
    (o ≠ 0 → implied_probability_from_american o < 1) ∧
    implied_probability_from_american (-110) = 110 / 210 ∧
    implied_probability_from_american 150 = 100 / 250 := by
  refine ⟨?_, ?_, implied_probability_pos o, implied_probability_le_one o,
    fun h => implied_probability_lt_one h, by norm_num [implied_probability_from_american],
    by norm_num [implied_probability_from_american]⟩
  · intro h
    have ho : (o : ℚ) < 0 := by exact_mod_cast h
    have habs : |(o : ℚ)| = -(o : ℚ) := abs_of_neg ho
    unfold implied_probability_from_american
    rw [if_pos h, habs]
  · intro h
    unfold implied_probability_from_american
    rw [if_neg (by omega)]

/-- Witness for C1's amended theorem: concrete instantiations at `o = -110`. -/
theorem implied_probability_from_american_spec_witness :
    implied_probability_from_american (-110) = (|(-110 : ℤ)| : ℚ) / ((|(-110 : ℤ)| : ℚ) + 100) ∧
    implied_probability_from_american (-110) < 1 ∧
    implied_probability_from_american 150 = 100 / 250 := by
  refine ⟨(implied_probability_from_american_spec (-110)).1 (by decide),
    (implied_probability_from_american_spec (-110)).2.2.2.2.1 (by decide),
    (implied_probability_from_american_spec 150).2.2.2.2.2.2⟩

/-- C1 counterexample: the claim asserts the implied probability lies strictly
inside `(0,1)` for every integer odds value, but the code maps `o = 0`
(handled by the non-negative branch) to exactly `1`. -/
theorem implied_probability_at_zero :
    implied_probability_from_american 0 = 1 ∧
    ¬ (implied_probability_from_american 0 < 1) := by
  norm_num [implied_probability_from_american]

theorem kelly_units_pos_eq {p i : ℚ} (h : 0 < p - i) :
    kelly_units p i = round1 (min 5 (max 1 ((p - i) * 40))) := by
  unfold kelly_units
  rw [if_neg (by linarith)]

/-- The code's clamp-then-round equals the spec's round-then-clamp. -/
theorem round1_clamp_comm (x : ℚ) :
    round1 (min 5 (max 1 x)) = min 5 (max 1 (round1 x)) := by
  rcases le_or_lt x 1 with hx | hx
  · have h1 : max 1 x = 1 := max_eq_left hx
    have h2 : min (5 : ℚ) 1 = 1 := by norm_num
    have hr : round1 x ≤ 1 := by
      calc round1 x ≤ round1 1 := round1_mono hx
        _ = 1 := round1_one
    rw [h1, h2, round1_one, max_eq_left hr]
    norm_num
  · rcases le_or_lt 5 x with hx5 | hx5
    · have h1 : max 1 x = x := max_eq_right (by linarith)
      have h2 : min 5 x = 5 := min_eq_left hx5
      have hr : (5 : ℚ) ≤ round1 x := by
        calc (5 : ℚ) = round1 5 := round1_five.symm
          _ ≤ round1 x := round1_mono hx5
      rw [h1, h2, round1_five, max_eq_right (by linarith), min_eq_left hr]
    · have h1 : max 1 x = x := max_eq_right (by linarith)
      have h2 : min 5 x = x := min_eq_right (by linarith)
      have hr1 : (1 : ℚ) ≤ round1 x := by
        calc (1 : ℚ) = round1 1 := round1_one.symm
          _ ≤ round1 x := round1_mono (by linarith)
      have hr5 : round1 x ≤ 5 := by
        calc round1 x ≤ round1 5 := round1_mono (by linarith)
          _ = 5 := round1_five
      rw [h1, h2, max_eq_right hr1, min_eq_right hr5]

/-- C3: `kelly_units` is `0` for non-positive edge; for positive edge it
equals `clamp(round(edge*40, 1), 1, 5)`, lies in `[1, 5]`, and is monotone
non-decreasing in the edge. -/
theorem kelly_units_spec :
    (∀ p i : ℚ, p - i ≤ 0 → kelly_units p i = 0) ∧
    (∀ p i : ℚ, 0 < p - i →
      kelly_units p i = min 5 (max 1 (round1 ((p - i) * 40)))) ∧
    (∀ p i : ℚ, 0 < p - i → 1 ≤ kelly_units p i ∧ kelly_units p i ≤ 5) ∧
    (∀ p i p' i' : ℚ, 0 < p - i → p - i ≤ p' - i' →
      kelly_units p i ≤ kelly_units p' i') := by
  refine ⟨?_, ?_, ?_, ?_⟩
  · intro p i h
    unfold kelly_units
    rw [if_pos h]
  · intro p i h
    rw [kelly_units_pos_eq h, round1_clamp_comm]
  · intro p i h
    rw [kelly_units_pos_eq h, round1_clamp_comm]
    constructor
    · exact le_min (by norm_num) (le_max_left _ _)
    · exact min_le_left _ _
  · intro p i p' i' h hle
    rw [kelly_units_pos_eq h, kelly_units_pos_eq (by linarith)]
    apply round1_mono
    exact min_le_min le_rfl (max_le_max le_rfl (by nlinarith))

/-- Witness for C3 at edge `0.08` (the spec's own scenario: `0.08 × 40 = 3.2`)
and the non-positive edge `0`. -/
theorem kelly_units_spec_witness :
    kelly_units (1/2) (1/2) = 0 ∧
    kelly_units (17/25) (3/5) = min 5 (max 1 (round1 ((17/25 - 3/5) * 40))) ∧
    (1 ≤ kelly_units (17/25) (3/5) ∧ kelly_units (17/25) (3/5) ≤ 5) ∧
    kelly_units (17/25) (3/5) ≤ kelly_units (7/10) (1/2) ∧
    kelly_units (17/25) (3/5) = 16/5 := by
  refine ⟨kelly_units_spec.1 (1/2) (1/2) (by norm_num),
    kelly_units_spec.2.1 (17/25) (3/5) (by norm_num),
    kelly_units_spec.2.2.1 (17/25) (3/5) (by norm_num),
    kelly_units_spec.2.2.2 (17/25) (3/5) (7/10) (1/2) (by norm_num) (by norm_num),
    by norm_num [kelly_units, round1, rhalf_even, rat_floor_eq_floor, min_def, max_def]⟩

/-! ## Data model -/

/-- `Game` dataclass. -/
structure Game where
  game_id : String
  home_team : String
  away_team : String
  tipoff_utc : String
deriving DecidableEq

/-- `BetPick` dataclass. -/
structure BetPick where
  matchup : String
  market_type : String
  line_odds : String
  projected_probability : ℚ
  implied_probability : ℚ
  edge : ℚ
  projected_final_score : Option String
  reasons : List String
  risk : String
  units : ℚ
deriving DecidableEq

/-- One odds outcome: `name`/`description` labels, `point` (line) and
`price` (American odds); `none` models a missing/null JSON key. -/
structure Outcome where
  name : String
  description : String
  point : Option ℚ
  price : Option ℤ
deriving DecidableEq

structure Market where
  key : String
  outcomes : List Outcome
deriving DecidableEq

structure Bookmaker where
  title : String
  markets : List Market
deriving DecidableEq

/-- One odds-API event. -/
structure Event where
  home_team : String
  away_team : String
  commence_time : Option String
  bookmakers : List Bookmaker
deriving DecidableEq

/-- One player record of a boxscore feed. -/
structure BoxPlayer where
  firstName : String
  familyName : String
deriving DecidableEq

/-- Injury map: team abbreviation → (player name → uppercased status). -/
abbrev InjMap := List (String × List (String × String))

/-- Lineup map: team abbreviation → projected starters. -/
abbrev LineupMap := List (String × List String)

/-- Recent-games map: team abbreviation → last (up to 3) completed game ids. -/
abbrev RecentMap := List (String × List String)

/-- Team-stats lookup: team abbreviation → stat key → value (merged rows). -/
abbrev StatsFn := String → String → Option ℚ

/-- Boxscore fetch oracle: game id → player list, `none` when the underlying
fetch raises. -/
abbrev BoxFn := String → Option (List BoxPlayer)

/-! ## Upstream fetch layer (`DataClient._request_with_retry`) -/

def REQUEST_RETRIES : Nat := 3

def REQUEST_BACKOFF_SECONDS : Nat := 1

/-- Per-source record written to `DataClient.upstream_status`. -/
structure StatusEntry where
  ok : Bool
  attempts : Nat
  url : String
  error : Option String
deriving DecidableEq

/-- The retry loop of `_request_with_retry`: `f k` is the outcome of the
`k`-th HTTP attempt (response payload, or the exception's message).  Returns
the final outcome, the number of the last attempt made and the list of
backoff sleeps (in seconds) performed between consecutive attempts. -/
def retry_go {α : Type} (f : Nat → Except String α) :
    Nat → Nat → Except String α × Nat × List Nat
  | attempt, 0 => (Except.error "", attempt, [])
  | attempt, remaining + 1 =>
    match f attempt with
    | Except.ok v => (Except.ok v, attempt, [])
    | Except.error e =>
      if remaining = 0 then (Except.error e, attempt, [])
      else
        let r := retry_go f (attempt + 1) remaining
        (r.1, r.2.1, REQUEST_BACKOFF_SECONDS * 2 ^ (attempt - 1) :: r.2.2)

/-- The `RuntimeError` message raised by `_request_with_retry` on
exhaustion: it names the source id, the attempt count and the last error. -/
def fetch_fail_msg (source : String) (total : Nat) (e : String) : String :=
  source ++ " failed after " ++ toString total ++ " attempts: " ++ e

/-- `DataClient._request_with_retry`, also threading the shared
`upstream_status` table (an association list whose most recent write for a
key shadows earlier ones, as for a Python dict assignment). -/
def request_with_retry {α : Type} (f : Nat → Except String α) (url source : String)
    (status : List (String × StatusEntry)) :
    Except String α × List (String × StatusEntry) × List Nat :=
  let total := REQUEST_RETRIES + 1
  match retry_go f 1 total with
  | (Except.ok v, att, sleeps) =>
    (Except.ok v, (source, ⟨true, att, url, none⟩) :: status, sleeps)
  | (Except.error e, _, sleeps) =>
    (Except.error (fetch_fail_msg source total e),
      (source, ⟨false, total, url, some e⟩) :: status, sleeps)

/-- C6: at most 4 attempts (1 + 3 retries) with backoff sleeps 1, 2, 4 s
between consecutive attempts; the call's outcome is recorded against the
source id as `{ok, attempts, url, error?}` with `attempts` counting every
attempt made; on exhaustion the raised error carries the source id, the
attempt count and the last underlying error. -/
theorem request_with_retry_spec {α : Type} (f : Nat → Except String α)
    (url source : String) (status : List (String × StatusEntry)) :
    (∀ e1 e2 e3 e4,
      f 1 = Except.error e1 → f 2 = Except.error e2 →
      f 3 = Except.error e3 → f 4 = Except.error e4 →
      request_with_retry f url source status =
        (Except.error (fetch_fail_msg source 4 e4),
          (source, ⟨false, 4, url, some e4⟩) :: status, [1, 2, 4])) ∧
    (∀ k v, 1 ≤ k → k ≤ 4 → f k = Except.ok v →
      (∀ j, 1 ≤ j → j < k → ∃ e, f j = Except.error e) →
      request_with_retry f url source status =
        (Except.ok v, (source, ⟨true, k, url, none⟩) :: status, [1, 2, 4].take (k - 1))) := by
  constructor
  · intro e1 e2 e3 e4 h1 h2 h3 h4
    simp [request_with_retry, REQUEST_RETRIES, retry_go, h1, h2, h3, h4,
      REQUEST_BACKOFF_SECONDS]
  · intro k v hk1 hk4 hok hprev
    interval_cases k
    · simp [request_with_retry, REQUEST_RETRIES, retry_go, hok]
    · obtain ⟨e1, h1⟩ := hprev 1 (by norm_num) (by norm_num)
      simp [request_with_retry, REQUEST_RETRIES, retry_go, h1, hok,
        REQUEST_BACKOFF_SECONDS]
    · obtain ⟨e1, h1⟩ := hprev 1 (by norm_num) (by norm_num)
      obtain ⟨e2, h2⟩ := hprev 2 (by norm_num) (by norm_num)
      simp [request_with_retry, REQUEST_RETRIES, retry_go, h1, h2, hok,
        REQUEST_BACKOFF_SECONDS]
    · obtain ⟨e1, h1⟩ := hprev 1 (by norm_num) (by norm_num)
      obtain ⟨e2, h2⟩ := hprev 2 (by norm_num) (by norm_num)
      obtain ⟨e3, h3⟩ := hprev 3 (by norm_num) (by norm_num)
      simp [request_with_retry, REQUEST_RETRIES, retry_go, h1, h2, h3, hok,
        REQUEST_BACKOFF_SECONDS]

/-- Attempt oracle used by the C6 witness: attempts 1 and 2 fail, attempt 3
succeeds. -/
def c6_attempts : Nat → Except String String :=
  fun n => if n < 3 then Except.error ("boom" ++ toString n) else Except.ok "payload"

/-- Attempt oracle used by the C6 witness: every attempt fails. -/
def c6_attempts_bad : Nat → Except String String :=
  fun _ => Except.error "down"

/-- Witness for C6: a success on the 3rd attempt (after sleeps 1, 2) and a
full exhaustion (sleeps 1, 2, 4 and a raised error naming source, count and
last error). -/
theorem request_with_retry_spec_witness :
    request_with_retry c6_attempts "http://u" "src" [] =
      (Except.ok "payload", [("src", ⟨true, 3, "http://u", none⟩)], [1, 2]) ∧
    request_with_retry c6_attempts_bad "http://u" "src" [] =
      (Except.error "src failed after 4 attempts: down",
        [("src", ⟨false, 4, "http://u", some "down"⟩)], [1, 2, 4]) := by
  constructor
  · exact (request_with_retry_spec c6_attempts "http://u" "src" []).2 3 "payload"
      (by norm_num) (by norm_num) rfl
      (fun j hj1 hj3 => by
        interval_cases j
        · exact ⟨"boom1", rfl⟩
        · exact ⟨"boom2", rfl⟩)
  · exact (request_with_retry_spec c6_attempts_bad "http://u" "src" []).1
      "down" "down" "down" "down" rfl rfl rfl rfl

/-! ## Schedule adapters -/

/-- One record of the `data.nba.net` season schedule feed; `none` models a
missing JSON key. -/
structure NbaNetGame where
  gameId : String
  startDateEastern : Option String
  statusNum : Option ℤ
  hTeamTriCode : String
  vTeamTriCode : String
  startTimeUTC : String
deriving DecidableEq

/-- One game record of the CDN static schedule feed.  The feed's
`gameStatus` flag is part of the payload but is never read by the code. -/
structure CdnGame where
  gameId : String
  gameStatus : Option ℤ
  homeTeamTricode : String
  awayTeamTricode : String
  gameDateTimeUTC : String
deriving DecidableEq

/-- One `gameDates` entry of the CDN static schedule feed. -/
structure CdnDay where
  gameDate : String
  games : List CdnGame
deriving DecidableEq

/-- `DataClient._fetch_schedule_from_data_nba_net`, parameterized by the
already-fetched `league.standard` array and the `%Y%m%d`-formatted target
date string. -/
def fetch_schedule_from_data_nba_net (standard : List NbaNetGame) (target : String) :
    List Game :=
  standard.filterMap fun g =>
    if g.startDateEastern = some target ∧
        (g.statusNum = some 1 ∨ g.statusNum = some 2 ∨ g.statusNum = some 3) then
      some ⟨g.gameId, g.hTeamTriCode, g.vTeamTriCode, g.startTimeUTC⟩
    else none

/-- Python `s.split(" ")[0]`: everything before the first space. -/
def first_space_token (s : String) : String :=
  String.mk (s.data.takeWhile fun c => c ≠ ' ')

/-- The date string the CDN adapter compares against the target: the first
space-separated token of `gameDate` parsed as `%m/%d/%Y` and re-rendered as
ISO (`parse_mdy` models `strptime`), falling back to the first 10 characters
on a parse error. -/
def cdn_day_date (parse_mdy : String → Option String) (day_raw : String) : String :=
  match parse_mdy (first_space_token day_raw) with
  | some iso => iso
  | none => if day_raw.data.length ≥ 10 then String.mk (day_raw.data.take 10) else ""

/-- `DataClient._fetch_schedule_from_cdn_static`, parameterized by the
already-fetched `leagueSchedule.gameDates` array, the `%m/%d/%Y` parser and
the ISO target date.  Note: no status filter is applied here. -/
def fetch_schedule_from_cdn_static (parse_mdy : String → Option String)
    (game_dates : List CdnDay) (target : String) : List Game :=
  game_dates.flatMap fun day =>
    if cdn_day_date parse_mdy day.gameDate = target then
      day.games.map fun g =>
        ⟨g.gameId, g.homeTeamTricode, g.awayTeamTricode, g.gameDateTimeUTC⟩
    else []

/-- C7 (amended): the primary `data.nba.net` path includes a game iff some
source record matches the target Eastern date string AND has
`statusNum ∈ {1,2,3}`; the CDN fallback path includes a game iff some source
record sits under a day matching the ISO target date — with no condition on
its status flags. -/
theorem schedule_adapters_spec :
    (∀ (standard : List NbaNetGame) (target : String) (g : Game),
      g ∈ fetch_schedule_from_data_nba_net standard target ↔
        ∃ r ∈ standard, r.startDateEastern = some target ∧
          (r.statusNum = some 1 ∨ r.statusNum = some 2 ∨ r.statusNum = some 3) ∧
          g = ⟨r.gameId, r.hTeamTriCode, r.vTeamTriCode, r.startTimeUTC⟩) ∧
    (∀ (parse_mdy : String → Option String) (game_dates : List CdnDay)
        (target : String) (g : Game),
      g ∈ fetch_schedule_from_cdn_static parse_mdy game_dates target ↔
        ∃ day ∈ game_dates, cdn_day_date parse_mdy day.gameDate = target ∧
          ∃ r ∈ day.games,
            g = ⟨r.gameId, r.homeTeamTricode, r.awayTeamTricode, r.gameDateTimeUTC⟩) := by
  constructor
  · intro standard target g
    simp only [fetch_schedule_from_data_nba_net, List.mem_filterMap]
    constructor
    · rintro ⟨r, hr, hsome⟩
      by_cases hc : r.startDateEastern = some target ∧
          (r.statusNum = some 1 ∨ r.statusNum = some 2 ∨ r.statusNum = some 3)
      · rw [if_pos hc] at hsome
        exact ⟨r, hr, hc.1, hc.2, (Option.some.injEq _ _ ▸ hsome).symm⟩
      · rw [if_neg hc] at hsome
        exact absurd hsome (Option.noConfusion)
    · rintro ⟨r, hr, hdate, hstatus, hg⟩
      exact ⟨r, hr, by rw [if_pos ⟨hdate, hstatus⟩, hg]⟩
  · intro parse_mdy game_dates target g
    simp only [fetch_schedule_from_cdn_static, List.mem_flatMap]
    constructor
    · rintro ⟨day, hday, hg⟩
      by_cases hc : cdn_day_date parse_mdy day.gameDate = target
      · rw [if_pos hc] at hg
        obtain ⟨r, hr, hrg⟩ := List.mem_map.mp hg
        exact ⟨day, hday, hc, r, hr, hrg.symm⟩
      · rw [if_neg hc] at hg
        exact absurd hg (List.not_mem_nil g)
    · rintro ⟨day, hday, hc, r, hr, hg⟩
      exact ⟨day, hday, by rw [if_pos hc]; exact List.mem_map.mpr ⟨r, hr, hg.symm⟩⟩

/-- CDN day used by the C7 counterexample: the day matches the target ISO
date and its single game is neither scheduled, live nor final
(`gameStatus = 0`). -/
def c7_bad_game : CdnGame :=
  ⟨"0022600001", some 0, "BOS", "NYK", "2026-10-12T23:00:00Z"⟩

def c7_parse : String → Option String :=
  fun s => if s = "10/12/2026" then some "2026-10-12" else none

/-- C7 counterexample: the claim says both adapter paths include a game only
if its status flags indicate scheduled/live/final, but the CDN fallback path
performs no status filtering — a `gameStatus = 0` game on the matching date
is included. -/
theorem schedule_cdn_status_counterexample :
    ¬ (∀ (parse_mdy : String → Option String) (game_dates : List CdnDay)
        (target : String) (day : CdnDay) (r : CdnGame),
        day ∈ game_dates → r ∈ day.games →
        (⟨r.gameId, r.homeTeamTricode, r.awayTeamTricode, r.gameDateTimeUTC⟩ : Game) ∈
          fetch_schedule_from_cdn_static parse_mdy game_dates target →
        (r.gameStatus = some 1 ∨ r.gameStatus = some 2 ∨ r.gameStatus = some 3)) := by
  intro h
  have := h c7_parse [⟨"10/12/2026 00:00:00", [c7_bad_game]⟩] "2026-10-12"
    ⟨"10/12/2026 00:00:00", [c7_bad_game]⟩ c7_bad_game
    (by decide) (by decide) (by decide)
  simp [c7_bad_game] at this

/-- Witness for C7's amended theorem: a status-1 game on the target date is
included by the primary path, and the counterexample game is included by the
CDN path. -/
theorem schedule_adapters_spec_witness :
    (⟨"001", "BOS", "NYK", "t"⟩ : Game) ∈
      fetch_schedule_from_data_nba_net
        [⟨"001", some "20261012", some 1, "BOS", "NYK", "t"⟩] "20261012" ∧
    (⟨"0022600001", "BOS", "NYK", "2026-10-12T23:00:00Z"⟩ : Game) ∈
      fetch_schedule_from_cdn_static c7_parse
        [⟨"10/12/2026 00:00:00", [c7_bad_game]⟩] "2026-10-12" := by
  constructor
  · exact (schedule_adapters_spec.1 _ "20261012" _).mpr
      ⟨⟨"001", some "20261012", some 1, "BOS", "NYK", "t"⟩, by decide, rfl,
        Or.inl rfl, rfl⟩
  · exact (schedule_adapters_spec.2 c7_parse _ "2026-10-12" _).mpr
      ⟨⟨"10/12/2026 00:00:00", [c7_bad_game]⟩, by decide, by decide,
        c7_bad_game, by decide, rfl⟩

/-! ## String helpers (char-list models of the Python string methods) -/

def str_upper (s : String) : String := String.mk (s.data.map Char.toUpper)

def str_lower (s : String) : String := String.mk (s.data.map Char.toLower)

/-- Python `str.strip()`. -/
def str_trim (s : String) : String :=
  String.mk (((s.data.dropWhile Char.isWhitespace).reverse.dropWhile
    Char.isWhitespace).reverse)

/-- Python `sub in s` substring containment. -/
def contains_sub (s sub : String) : Bool := decide (sub.data <:+: s.data)

/-! ## Team name → tricode map -/

def ODDS_TEAM_TO_ABBR : List (String × String) :=
  [("Atlanta Hawks", "ATL"), ("Boston Celtics", "BOS"), ("Brooklyn Nets", "BKN"),
   ("Charlotte Hornets", "CHA"), ("Chicago Bulls", "CHI"), ("Cleveland Cavaliers", "CLE"),
   ("Dallas Mavericks", "DAL"), ("Denver Nuggets", "DEN"), ("Detroit Pistons", "DET"),
   ("Golden State Warriors", "GSW"), ("Houston Rockets", "HOU"), ("Indiana Pacers", "IND"),
   ("LA Clippers", "LAC"), ("Los Angeles Clippers", "LAC"), ("Los Angeles Lakers", "LAL"),
   ("Memphis Grizzlies", "MEM"), ("Miami Heat", "MIA"), ("Milwaukee Bucks", "MIL"),
   ("Minnesota Timberwolves", "MIN"), ("New Orleans Pelicans", "NOP"),
   ("New York Knicks", "NYK"), ("Oklahoma City Thunder", "OKC"), ("Orlando Magic", "ORL"),
   ("Philadelphia 76ers", "PHI"), ("Phoenix Suns", "PHX"), ("Portland Trail Blazers", "POR"),
   ("Sacramento Kings", "SAC"), ("San Antonio Spurs", "SAS"), ("Toronto Raptors", "TOR"),
   ("Utah Jazz", "UTA"), ("Washington Wizards", "WAS")]

/-! ## Player eligibility -/

def INACTIVE_FLAGS : List String :=
  ["OUT", "DOUBTFUL", "INACTIVE", "G LEAGUE", "SUSPENSION", "OFS"]

/-- `BettingModel._is_inactive`: true iff the upper-cased status contains
one of the inactive flags as a substring. -/
def is_inactive (status : String) : Bool :=
  INACTIVE_FLAGS.any fun flag => contains_sub (str_upper status) flag

/-- The `f"{firstName} {familyName}".strip()` boxscore player name. -/
def boxscore_name (p : BoxPlayer) : String :=
  str_trim (p.firstName ++ " " ++ p.familyName)

/-- `DataClient.player_played_two_of_last_three`: false outright when fewer
than 3 recent game ids are recorded for the team; otherwise counts the
recent games whose (possibly failing) boxscore fetch lists the player. -/
def player_played_two_of_last_three (box : BoxFn) (player_name team_abbr : String)
    (recent_games : RecentMap) : Bool :=
  let game_ids := (recent_games.lookup team_abbr).getD []
  if game_ids.length < 3 then false
  else
    let played := game_ids.countP fun gid =>
      match box gid with
      | none => false
      | some players => players.any fun p => boxscore_name p == player_name
    decide (2 ≤ played)

/-- The eligibility filter of `generate_report`: per `(team, lineup)` pair,
keep the lineup players whose injury status (defaulting to `"ACTIVE"`) is
not inactive and who recently played 2 of the team's last 3 games. -/
def eligible_players (box : BoxFn) (injuries : InjMap) (recent : RecentMap)
    (teams : List (String × List String)) : List (String × String) :=
  teams.flatMap fun tl =>
    let team_inj := (injuries.lookup tl.1).getD []
    tl.2.filterMap fun player =>
      let status := (team_inj.lookup player).getD "ACTIVE"
      if is_inactive status then none
      else if ! player_played_two_of_last_three box player tl.1 recent then none
      else some (tl.1, player)

/-! ## Projection model -/

structure GameProjection where
  projected_possessions : ℚ
  projected_home_pts : ℚ
  projected_away_pts : ℚ
  projected_spread_home : ℚ
  projected_total : ℚ
  expected_shot_quality_distribution : ℚ
  outcome_variance : ℚ

/-- `BettingModel.project_game` on the merged team-stat lookup. -/
def project_game (stats : StatsFn) (home away : String) : GameProjection :=
  let h_pace := (stats home "pace_last10").getD ((stats home "pace").getD 99)
  let a_pace := (stats away "pace_last10").getD ((stats away "pace").getD 99)
  let poss := (h_pace + a_pace) / 2
  let h_off := (stats home "off_rating_last10").getD ((stats home "off_rating").getD 112)
  let h_def := (stats home "def_rating_last10").getD ((stats home "def_rating").getD 112)
  let a_off := (stats away "off_rating_last10").getD ((stats away "off_rating").getD 112)
  let a_def := (stats away "def_rating_last10").getD ((stats away "def_rating").getD 112)
  let home_off_eff := (h_off + a_def) / 2
  let away_off_eff := (a_off + h_def) / 2
  let home_pts := poss * home_off_eff / 100 + 9/5
  let away_pts := poss * away_off_eff / 100
  { projected_possessions := poss
    projected_home_pts := home_pts
    projected_away_pts := away_pts
    projected_spread_home := home_pts - away_pts
    projected_total := home_pts + away_pts
    expected_shot_quality_distribution :=
      ((stats home "ts_pct").getD (57/100) + (stats away "ts_pct").getD (57/100)) / 2
    outcome_variance := (23/2) ^ 2 }

/-! ## Probability oracles

The Monte-Carlo samplers (`_simulate_spread_probability`,
`_simulate_total_probability`) draw fresh unseeded random samples on every
call and `norm_cdf` goes through `math.erf`; they are modelled as oracle
functions.  Theorems that need it assume only that the oracles return
values in `[0, 1]`, which the code guarantees: the samplers return a sample
fraction `(sims > line).mean()` and `norm_cdf(x) = (1 + erf(x/√2))/2` with
`erf` valued in `[-1, 1]`. -/

structure ProbModel where
  simSpread : ℚ → ℚ → ℚ
  simTotal : ℚ → ℚ → Bool → ℚ
  normCdf : ℚ → ℚ
  form : String → String → String → ℚ

/-- `BettingModel.prob_over_normal` over a normal-CDF oracle. -/
def prob_over_normal (cdf : ℚ → ℚ) (mean sd line : ℚ) : ℚ :=
  if sd ≤ 0 then 1/2 else 1 - cdf ((line - mean) / sd)

/-- The sample fraction `(sims > line).mean()` of a concrete sample draw:
what `_simulate_spread_probability` computes for its 20000 normal samples. -/
def sample_fraction (sims : List ℚ) (line : ℚ) : ℚ :=
  (sims.countP fun s => decide (line < s)) / sims.length

/-! ## Per-market pick construction (`generate_report` inner loops) -/

/-- Per-game context threaded through the market loops. -/
structure PickCtx where
  matchup : String
  home_team : String
  away_team : String
  home_name : String
  spread : ℚ
  total : ℚ
  home_pts : ℚ
  away_pts : ℚ
  eligible : List (String × String)

/-- Python `int(out.get("price", -110) or -110)`: a missing, null or zero
price falls back to `-110`. -/
def price_of (out : Outcome) : ℤ :=
  match out.price with
  | none => -110
  | some v => if v = 0 then -110 else v

/-- Python `float(out.get("point", 0) or 0)`. -/
def line_of (out : Outcome) : ℚ :=
  match out.point with
  | none => 0
  | some x => x

/-- Display rendering of a rational line value. -/
def rat_str (q : ℚ) : String :=
  if q.den = 1 then toString q.num else toString q.num ++ "/" ++ toString q.den

/-- `f"{home} {round(home_pts)} - {away} {round(away_pts)}"`. -/
def score_str (ctx : PickCtx) : String :=
  ctx.home_team ++ " " ++ toString (rhalf_even ctx.home_pts) ++ " - " ++
    ctx.away_team ++ " " ++ toString (rhalf_even ctx.away_pts)

/-- The `BetPick(...)` constructor call shared by all five market branches:
`edge` is always `projected − implied` and `units` always
`kelly_units(p, implied)`. -/
def mk_bet_pick (matchup market_type line_odds : String) (p implied : ℚ)
    (score : Option String) (reasons : List String) (risk : String) : BetPick :=
  { matchup := matchup
    market_type := market_type
    line_odds := line_odds
    projected_probability := p
    implied_probability := implied
    edge := p - implied
    projected_final_score := score
    reasons := reasons
    risk := risk
    units := kelly_units p implied }

def spread_pick (M : ProbModel) (ctx : PickCtx) (title : String) (out : Outcome) :
    Option BetPick :=
  let line := line_of out
  let price := price_of out
  let is_home := str_lower out.name = str_lower ctx.home_name
  let p := M.simSpread (if is_home then ctx.spread else -ctx.spread) line
  let implied := implied_probability_from_american price
  let edge := p - implied
  if 3/100 ≤ edge then
    some (mk_bet_pick ctx.matchup ("Spread: " ++ out.name ++ " " ++ rat_str line)
      (title ++ " (" ++ toString price ++ ")") p implied (some (score_str ctx))
      ["Projected margin differs materially from market spread",
       "Recent pace/off-def blend supports cover probability",
       "Eligible active-player filter satisfied"] "Medium")
  else none

def totals_pick (M : ProbModel) (ctx : PickCtx) (title : String) (out : Outcome) :
    Option BetPick :=
  let side := out.name
  let line := line_of out
  let price := price_of out
  let over := str_lower side = "over"
  let p := M.simTotal ctx.total line over
  let implied := implied_probability_from_american price
  let edge := p - implied
  if 3/100 ≤ edge then
    some (mk_bet_pick ctx.matchup ("Game Total: " ++ side ++ " " ++ rat_str line)
      (title ++ " (" ++ toString price ++ ")") p implied (some (score_str ctx))
      ["Projected possessions and efficiency imply total mispricing",
       "Model variance profile still clears 3% edge threshold",
       "Fresh same-day inputs used"] "Medium")
  else none

def h2h_pick (M : ProbModel) (ctx : PickCtx) (title : String) (out : Outcome) :
    Option BetPick :=
  let price := price_of out
  let is_home := str_lower out.name = str_lower ctx.home_name
  let p := M.simSpread (if is_home then ctx.spread else -ctx.spread) 0
  let implied := implied_probability_from_american price
  let edge := p - implied
  if 3/100 ≤ edge then
    some (mk_bet_pick ctx.matchup ("Moneyline: " ++ out.name)
      (title ++ " (" ++ toString price ++ ")") p implied (some (score_str ctx))
      ["Win-probability simulation exceeds implied probability",
       "Last-10 net-rating differential supports side",
       "Home-court and efficiency adjustment included"]
      (if 170 < |price| then "High" else "Medium"))
  else none

def team_total_pick (M : ProbModel) (ctx : PickCtx) (title : String) (out : Outcome) :
    Option BetPick :=
  let side := out.name
  let team_abbr := (ODDS_TEAM_TO_ABBR.lookup out.description).getD ""
  if team_abbr = ctx.home_team ∨ team_abbr = ctx.away_team then
    let line := line_of out
    let price := price_of out
    let mean := if team_abbr = ctx.home_team then ctx.home_pts else ctx.away_pts
    let sd : ℚ := 19/2
    let over := str_lower side = "over"
    let p := if over then prob_over_normal M.normCdf mean sd line
             else 1 - prob_over_normal M.normCdf mean sd line
    let implied := implied_probability_from_american price
    let edge := p - implied
    if 3/100 ≤ edge then
      some (mk_bet_pick ctx.matchup
        ("Team Total: " ++ team_abbr ++ " " ++ side ++ " " ++ rat_str line)
        (title ++ " (" ++ toString price ++ ")") p implied (some (score_str ctx))
        ["Team-scoring projection diverges from posted team total",
         "Opponent defensive rating embedded in mean projection",
         "Distribution model keeps edge above cutoff"] "Medium")
    else none
  else none

/-- The `stat_map` of the player-prop branch. -/
def prop_stat_map (key : String) : Option (String × String × String) :=
  if key = "player_points" then some ("pts_mean", "pts_sd", "Points")
  else if key = "player_rebounds" then some ("reb_mean", "reb_sd", "Rebounds")
  else if key = "player_assists" then some ("ast_mean", "ast_sd", "Assists")
  else if key = "player_threes" then some ("threes_mean", "threes_sd", "3PM")
  else if key = "player_pra" then some ("pra_mean", "pra_sd", "PRA")
  else none

def prop_pick (M : ProbModel) (ctx : PickCtx) (title : String)
    (sm : String × String × String) (out : Outcome) : Option BetPick :=
  let side := out.name
  let player := str_trim out.description
  let line := line_of out
  let price := price_of out
  match ctx.eligible.find? fun tp => tp.2 == player with
  | none => none
  | some tp =>
    let mean := M.form player tp.1 sm.1
    let sd := max 1 (M.form player tp.1 sm.2.1)
    let over := str_lower side = "over"
    let p := if over then prob_over_normal M.normCdf mean sd line
             else 1 - prob_over_normal M.normCdf mean sd line
    let implied := implied_probability_from_american price
    let edge := p - implied
    if 3/100 ≤ edge then
      some (mk_bet_pick ctx.matchup
        ("Player Prop: " ++ player ++ " " ++ sm.2.2 ++ " " ++ side ++ " " ++ rat_str line)
        (title ++ " (" ++ toString price ++ ")") p implied none
        ["Last-game form mean/variance projects mispriced prop",
         "Only active eligible players included",
         "Edge remains above 3% after variance adjustment"] "High")
    else none

/-- Market dispatch of the `generate_report` inner loop; unknown market
keys contribute nothing. -/
def market_picks (M : ProbModel) (ctx : PickCtx) (title : String) (mkt : Market) :
    List BetPick :=
  if mkt.key = "spreads" then mkt.outcomes.filterMap (spread_pick M ctx title)
  else if mkt.key = "totals" then mkt.outcomes.filterMap (totals_pick M ctx title)
  else if mkt.key = "h2h" then mkt.outcomes.filterMap (h2h_pick M ctx title)
  else if mkt.key = "team_totals" then mkt.outcomes.filterMap (team_total_pick M ctx title)
  else
    match prop_stat_map mkt.key with
    | some sm => mkt.outcomes.filterMap (prop_pick M ctx title sm)
    | none => []

def bookmaker_picks (M : ProbModel) (ctx : PickCtx) (b : Bookmaker) : List BetPick :=
  b.markets.flatMap (market_picks M ctx b.title)

def event_picks (M : ProbModel) (ctx : PickCtx) (e : Event) : List BetPick :=
  e.bookmakers.flatMap (bookmaker_picks M ctx)

/-! ## Per-game processing -/

/-- `BettingModel._odds_events_by_matchup`: a dict keyed by
`f"{away}@{home}"` tricodes; later events overwrite earlier keys, which the
association list models by prepending (lookup finds the latest write). -/
def odds_events_by_matchup (odds_data : List Event) : List (String × Event) :=
  odds_data.foldl (fun acc event =>
    let h := (ODDS_TEAM_TO_ABBR.lookup event.home_team).getD ""
    let a := (ODDS_TEAM_TO_ABBR.lookup event.away_team).getD ""
    if h ≠ "" ∧ a ≠ "" then (a ++ "@" ++ h, event) :: acc else acc) []

/-- Per-game analytics entry; only the claim-relevant fields are kept
(`status` is absent — `none` — on the fully processed path, exactly as the
Python dict has no `"status"` key there; the remaining fields of the Python
dict are diagnostic pass-through data). -/
structure AnalyticsEntry where
  matchup : String
  status : Option String
deriving DecidableEq

def mk_matchup (g : Game) : String := g.away_team ++ " at " ++ g.home_team

/-- The per-game body of `generate_report`'s main loop: lineup gate (≥5 a
side), eligibility gate (≥8 eligible active players), odds-event gate, then
the per-bookmaker/per-market pick loops.  Returns the picks the game
contributes and its analytics entry. -/
def processGame (M : ProbModel) (box : BoxFn) (stats : StatsFn) (injuries : InjMap)
    (lineups : LineupMap) (recent : RecentMap) (events : List (String × Event))
    (g : Game) : List BetPick × AnalyticsEntry :=
  let matchup := mk_matchup g
  let proj := project_game stats g.home_team g.away_team
  let home_lineup := (lineups.lookup g.home_team).getD []
  let away_lineup := (lineups.lookup g.away_team).getD []
  if home_lineup.length < 5 ∨ away_lineup.length < 5 then
    ([], ⟨matchup, some "insufficient_lineup_data"⟩)
  else
    let elig := eligible_players box injuries recent
      [(g.home_team, home_lineup), (g.away_team, away_lineup)]
    if elig.length < 8 then
      ([], ⟨matchup, some "insufficient_active_players"⟩)
    else
      match events.lookup (g.away_team ++ "@" ++ g.home_team) with
      | none => ([], ⟨matchup, some "missing_market_data"⟩)
      | some event =>
        let ctx : PickCtx :=
          { matchup := matchup
            home_team := g.home_team
            away_team := g.away_team
            home_name := event.home_team
            spread := proj.projected_spread_home
            total := proj.projected_total
            home_pts := proj.projected_home_pts
            away_pts := proj.projected_away_pts
            eligible := elig }
        (event_picks M ctx event, ⟨matchup, none⟩)

/-- The pooled candidate pick list of a report run. -/
def report_picks (M : ProbModel) (box : BoxFn) (stats : StatsFn) (injuries : InjMap)
    (lineups : LineupMap) (recent : RecentMap) (events : List (String × Event))
    (games : List Game) : List BetPick :=
  games.flatMap fun g => (processGame M box stats injuries lineups recent events g).1

/-! ## Ranking -/

/-- `picks.sort(key=lambda p: p.edge, reverse=True)`: a stable descending
sort by edge. -/
def sort_desc_edge (picks : List BetPick) : List BetPick :=
  picks.mergeSort fun a b => decide (b.edge ≤ a.edge)

/-- Lines 987–991 of `generate_report`: take the top 10 of the sorted
candidate pool, plus the redundant re-truncation branch. -/
def ranked_picks (picks : List BetPick) : List BetPick :=
  let sorted := sort_desc_edge picks
  let ranked := sorted.take 10
  if ranked ≠ [] ∧ ranked.length < 6 then sorted.take ranked.length else ranked

/-! ## Freshness/consistency verifier and report assembly -/

/-- Python `s.replace("Z", "+00:00")`. -/
def replace_z (s : String) : String :=
  String.mk (s.data.flatMap fun c => if c = 'Z' then "+00:00".data else [c])

/-- `BettingModel._verify_live_data`.  Calendar dates are abstracted to `ℤ`
day ordinals: `now` is today's UTC date, `today` the run date, `parse` the
`datetime.fromisoformat(...).date()` composite (returning `none` when
parsing raises). -/
def verify_live_data (parse : String → Option ℤ) (now today : ℤ) (games : List Game)
    (injuries : InjMap) (lineups : LineupMap) (odds_data : List Event)
    (fetched_at : List (String × ℤ)) : Bool × List String :=
  let issues :=
    (if games.isEmpty then ["No confirmed schedule games for TODAY."] else []) ++
    (if injuries.isEmpty then ["Injury feed empty."] else []) ++
    (if lineups.isEmpty then ["Projected lineup feed empty."] else []) ++
    (if odds_data.isEmpty then ["Betting market feed empty."] else []) ++
    (fetched_at.flatMap fun kv =>
      if kv.2 = now then [] else [kv.1 ++ " not fetched today."]) ++
    (let by_matchup := odds_events_by_matchup odds_data
     games.flatMap fun g =>
       let key := g.away_team ++ "@" ++ g.home_team
       match by_matchup.lookup key with
       | none => ["Missing odds for " ++ key ++ "."]
       | some event =>
         match event.commence_time with
         | none => ["Missing commence_time for " ++ key ++ "."]
         | some c =>
           if c = "" then ["Missing commence_time for " ++ key ++ "."]
           else
             match parse (replace_z c) with
             | none => ["Unparseable commence_time for " ++ key ++ "."]
             | some d =>
               if d = today then [] else ["Schedule/odds date mismatch for " ++ key ++ "."])
  (issues.isEmpty, issues)

/-- The placeholder structure returned by `fetch_market_signals`. -/
structure MarketSignals where
  public_pct : Option ℚ
  sharp_indicators : Option ℚ
  source : String
deriving DecidableEq

/-- The already-resolved outcome of each wrapped upstream fetch of
`generate_report` (`Except.error e` models the fetch raising after
retries). -/
structure FetchResults where
  schedule : Except String (List Game × ℤ)
  injuries : Except String (InjMap × ℤ)
  lineups : Except String (LineupMap × ℤ)
  odds : Except String (List Event × ℤ)
  team_stats : Except String StatsFn
  recent_games : Except String RecentMap
  market_signals : Except String MarketSignals

/-- The `safe_fetch` wrapper of `generate_report`: a failure degrades to the
default and contributes one diagnostic string. -/
def safe_fetch {α : Type} (label : String) (r : Except String α) (default : α) :
    α × List String :=
  match r with
  | Except.ok a => (a, [])
  | Except.error e => (default, [label ++ " failed after retries: " ++ e])

/-- The claim-relevant slice of the report document. -/
structure ReportCore where
  ranked_picks : List BetPick
  all_picks : List BetPick
  game_analytics : List AnalyticsEntry
  degraded_mode : Bool
  upstream_failures : List String

/-- `BettingModel.generate_report` (the fetch wrappers, verifier,
degraded-mode flag, per-game loop and ranking; randomized sampling and the
form oracle arrive via `M`, boxscore fetches via `box`). -/
def generate_report_core (M : ProbModel) (box : BoxFn) (parse : String → Option ℤ)
    (now run_date : ℤ) (F : FetchResults) : ReportCore :=
  let sched := safe_fetch "schedule" F.schedule ([], now)
  let inj := safe_fetch "injuries" F.injuries ([], now)
  let lu := safe_fetch "lineups" F.lineups ([], now)
  let od := safe_fetch "odds" F.odds ([], now)
  let ts := safe_fetch "team_stats" F.team_stats (fun _ _ => none)
  let rg := safe_fetch "recent_games" F.recent_games []
  let ms := safe_fetch "market_signals" F.market_signals ⟨none, none, "unavailable"⟩
  let games := sched.1.1
  let fetch_issues := sched.2 ++ inj.2 ++ lu.2 ++ od.2 ++ ts.2 ++ rg.2 ++ ms.2
  let v := verify_live_data parse now run_date games inj.1.1 lu.1.1 od.1.1
    [("schedule", sched.1.2), ("injuries", inj.1.2), ("lineups", lu.1.2),
     ("odds", od.1.2)]
  let degraded_mode := !v.1 || !fetch_issues.isEmpty
  let all_issues := fetch_issues ++ v.2
  let events := odds_events_by_matchup od.1.1
  let results := games.map (processGame M box ts.1 inj.1.1 lu.1.1 rg.1 events)
  let picks := (results.map Prod.fst).flatten
  { ranked_picks := ranked_picks picks
    all_picks := picks
    game_analytics := results.map Prod.snd
    degraded_mode := degraded_mode
    upstream_failures := all_issues }

/-! ## C10: injury screen -/

/-- C10: a lineup player with no injury entry gets the default status
`"ACTIVE"` and passes the injury screen, and a player is judged inactive
iff the upper-cased status string contains one of the six flags as a
substring. -/
theorem is_inactive_spec :
    (∀ (injuries : InjMap) (team player : String),
      (((injuries.lookup team).getD []).lookup player) = none →
      is_inactive ((((injuries.lookup team).getD []).lookup player).getD "ACTIVE")
        = false) ∧
    (∀ status : String,
      is_inactive status = true ↔
        ∃ flag ∈ INACTIVE_FLAGS, flag.data <:+: (str_upper status).data) := by
  constructor
  · intro injuries team player h
    rw [h]
    decide
  · intro status
    simp [is_inactive, List.any_eq_true, contains_sub]

/-- Witness for C10: an unlisted player defaults to `"ACTIVE"` and passes;
the non-exact status `"Out (Knee Soreness)"` is judged inactive because it
contains the flag `"OUT"`. -/
theorem is_inactive_spec_witness :
    is_inactive ((((([] : InjMap).lookup "BOS").getD []).lookup "Jayson Tatum").getD
      "ACTIVE") = false ∧
    is_inactive "Out (Knee Soreness)" = true ∧
    "Out (Knee Soreness)" ≠ "OUT" := by
  refine ⟨is_inactive_spec.1 [] "BOS" "Jayson Tatum" rfl, ?_, by decide⟩
  exact (is_inactive_spec.2 "Out (Knee Soreness)").mpr ⟨"OUT", by decide, by decide⟩

/-! ## C9: recent-games gate -/

theorem pp2l3_short {box : BoxFn} {player team : String} {recent : RecentMap}
    (h : ((recent.lookup team).getD []).length < 3) :
    player_played_two_of_last_three box player team recent = false := by
  simp only [player_played_two_of_last_three]
  rw [if_pos h]

theorem pp2l3_nil (box : BoxFn) (player team : String) :
    player_played_two_of_last_three box player team [] = false :=
  pp2l3_short (by simp)

theorem eligible_players_nil_recent (box : BoxFn) (injuries : InjMap)
    (teams : List (String × List String)) :
    eligible_players box injuries [] teams = [] := by
  unfold eligible_players
  rw [List.flatMap_eq_nil_iff]
  intro tl _
  rw [List.filterMap_eq_nil_iff]
  intro player _
  simp [pp2l3_nil]

theorem processGame_nil_recent (M : ProbModel) (box : BoxFn) (stats : StatsFn)
    (injuries : InjMap) (lineups : LineupMap) (events : List (String × Event))
    (g : Game)
    (h : ¬ (((lineups.lookup g.home_team).getD []).length < 5 ∨
            ((lineups.lookup g.away_team).getD []).length < 5)) :
    processGame M box stats injuries lineups [] events g =
      ([], ⟨mk_matchup g, some "insufficient_active_players"⟩) := by
  simp only [processGame]
  rw [if_neg h, eligible_players_nil_recent]
  simp

theorem processGame_nil_recent_fst (M : ProbModel) (box : BoxFn) (stats : StatsFn)
    (injuries : InjMap) (lineups : LineupMap) (events : List (String × Event))
    (g : Game) :
    (processGame M box stats injuries lineups [] events g).1 = [] := by
  by_cases h : ((lineups.lookup g.home_team).getD []).length < 5 ∨
      ((lineups.lookup g.away_team).getD []).length < 5
  · simp only [processGame]
    rw [if_pos h]
  · rw [processGame_nil_recent M box stats injuries lineups events g h]

/-- C9: with fewer than 3 recorded recent game ids for the team the
recently-active check is false outright; with an empty recent-games map
every game with full lineups is flagged `insufficient_active_players`, and
the candidate pick pool — hence the ranked pick list — is empty. -/
theorem recent_games_gate_spec :
    (∀ (box : BoxFn) (player team : String) (recent : RecentMap),
      ((recent.lookup team).getD []).length < 3 →
      player_played_two_of_last_three box player team recent = false) ∧
    (∀ (M : ProbModel) (box : BoxFn) (stats : StatsFn) (injuries : InjMap)
        (lineups : LineupMap) (events : List (String × Event)) (g : Game),
      ¬ (((lineups.lookup g.home_team).getD []).length < 5 ∨
         ((lineups.lookup g.away_team).getD []).length < 5) →
      processGame M box stats injuries lineups [] events g =
        ([], ⟨mk_matchup g, some "insufficient_active_players"⟩)) ∧
    (∀ (M : ProbModel) (box : BoxFn) (stats : StatsFn) (injuries : InjMap)
        (lineups : LineupMap) (events : List (String × Event)) (games : List Game),
      report_picks M box stats injuries lineups [] events games = [] ∧
      ranked_picks (report_picks M box stats injuries lineups [] events games) = []) := by
  refine ⟨fun box player team recent h => pp2l3_short h,
    fun M box stats injuries lineups events g h =>
      processGame_nil_recent M box stats injuries lineups events g h,
    fun M box stats injuries lineups events games => ?_⟩
  have hp : report_picks M box stats injuries lineups [] events games = [] := by
    unfold report_picks
    rw [List.flatMap_eq_nil_iff]
    intro g _
    exact processGame_nil_recent_fst M box stats injuries lineups events g
  refine ⟨hp, ?_⟩
  rw [hp]
  simp [ranked_picks, sort_desc_edge]

/-- Probability/form oracle used by witnesses (all zeros). -/
def zero_model : ProbModel :=
  ⟨fun _ _ => 0, fun _ _ _ => 0, fun _ => 0, fun _ _ _ => 0⟩

/-- Full-lineup map used by witnesses: five named starters per side. -/
def c9_lineups : LineupMap :=
  [("BOS", ["a a", "b b", "c c", "d d", "e e"]),
   ("NYK", ["f f", "g g", "h h", "i i", "j j"])]

def c9_game : Game := ⟨"001", "BOS", "NYK", "t"⟩

/-- Witness for C9: a 2-entry recent-games list defeats the check, and with
an empty recent-games map the full-lineup game is flagged
`insufficient_active_players` with an empty pick pool. -/
theorem recent_games_gate_spec_witness :
    player_played_two_of_last_three (fun _ => none) "a a" "BOS"
      [("BOS", ["g1", "g2"])] = false ∧
    processGame zero_model (fun _ => none) (fun _ _ => none) [] c9_lineups [] []
      c9_game = ([], ⟨"NYK at BOS", some "insufficient_active_players"⟩) ∧
    report_picks zero_model (fun _ => none) (fun _ _ => none) [] c9_lineups [] []
      [c9_game] = [] := by
  refine ⟨recent_games_gate_spec.1 (fun _ => none) "a a" "BOS"
      [("BOS", ["g1", "g2"])] (by decide), ?_, ?_⟩
  · have := recent_games_gate_spec.2.1 zero_model (fun _ => none) (fun _ _ => none)
      [] c9_lineups [] c9_game (by decide)
    simpa [mk_matchup, c9_game] using this
  · exact (recent_games_gate_spec.2.2 zero_model (fun _ => none) (fun _ _ => none)
      [] c9_lineups [] [c9_game]).1

/-! ## C5: per-game gates -/

/-- C5: a game contributes picks only if both projected lineups list ≥5
players, ≥8 lineup players pass both the injury and recent-activity checks,
and a matching odds event keyed `away@home` exists; the two failing gate
cases are flagged `insufficient_lineup_data` / `insufficient_active_players`
respectively and (like a missing event) contribute no picks. -/
theorem processGame_gates_spec (M : ProbModel) (box : BoxFn) (stats : StatsFn)
    (injuries : InjMap) (lineups : LineupMap) (recent : RecentMap)
    (events : List (String × Event)) (g : Game) :
    ((processGame M box stats injuries lineups recent events g).1 ≠ [] →
      5 ≤ ((lineups.lookup g.home_team).getD []).length ∧
      5 ≤ ((lineups.lookup g.away_team).getD []).length ∧
      8 ≤ (eligible_players box injuries recent
        [(g.home_team, (lineups.lookup g.home_team).getD []),
         (g.away_team, (lineups.lookup g.away_team).getD [])]).length ∧
      (events.lookup (g.away_team ++ "@" ++ g.home_team)).isSome = true) ∧
    (((lineups.lookup g.home_team).getD []).length < 5 ∨
        ((lineups.lookup g.away_team).getD []).length < 5 →
      processGame M box stats injuries lineups recent events g =
        ([], ⟨mk_matchup g, some "insufficient_lineup_data"⟩)) ∧
    (¬ (((lineups.lookup g.home_team).getD []).length < 5 ∨
          ((lineups.lookup g.away_team).getD []).length < 5) →
      (eligible_players box injuries recent
        [(g.home_team, (lineups.lookup g.home_team).getD []),
         (g.away_team, (lineups.lookup g.away_team).getD [])]).length < 8 →
      processGame M box stats injuries lineups recent events g =
        ([], ⟨mk_matchup g, some "insufficient_active_players"⟩)) ∧
    (¬ (((lineups.lookup g.home_team).getD []).length < 5 ∨
          ((lineups.lookup g.away_team).getD []).length < 5) →
      8 ≤ (eligible_players box injuries recent
        [(g.home_team, (lineups.lookup g.home_team).getD []),
         (g.away_team, (lineups.lookup g.away_team).getD [])]).length →
      events.lookup (g.away_team ++ "@" ++ g.home_team) = none →
      processGame M box stats injuries lineups recent events g =
        ([], ⟨mk_matchup g, some "missing_market_data"⟩)) := by
  refine ⟨?_, ?_, ?_, ?_⟩
  · intro hne
    by_cases h1 : ((lineups.lookup g.home_team).getD []).length < 5 ∨
        ((lineups.lookup g.away_team).getD []).length < 5
    · exfalso
      apply hne
      simp only [processGame]
      rw [if_pos h1]
    · by_cases h2 : (eligible_players box injuries recent
          [(g.home_team, (lineups.lookup g.home_team).getD []),
           (g.away_team, (lineups.lookup g.away_team).getD [])]).length < 8
      · exfalso
        apply hne
        simp only [processGame]
        rw [if_neg h1, if_pos h2]
      · rcases hev : events.lookup (g.away_team ++ "@" ++ g.home_team) with _ | event
        · exfalso
          apply hne
          simp only [processGame]
          rw [if_neg h1, if_neg h2, hev]
        · push_neg at h1
          exact ⟨h1.1, h1.2, by omega, by simp [hev]⟩
  · intro h1
    simp only [processGame]
    rw [if_pos h1]
  · intro h1 h2
    simp only [processGame]
    rw [if_neg h1, if_pos h2]
  · intro h1 h2 hev
    simp only [processGame]
    rw [if_neg h1, if_neg (by omega), hev]

/-- Witness for C5: the three failing gates at concrete inputs (short
lineups; full lineups but no active players; full lineups and forced
eligibility but no matching odds event). -/
theorem processGame_gates_spec_witness :
    processGame zero_model (fun _ => none) (fun _ _ => none) []
      [("BOS", ["a a"])] [] [] c9_game =
      ([], ⟨"NYK at BOS", some "insufficient_lineup_data"⟩) ∧
    processGame zero_model (fun _ => none) (fun _ _ => none) [] c9_lineups [] []
      c9_game = ([], ⟨"NYK at BOS", some "insufficient_active_players"⟩) ∧
    processGame zero_model
      (fun _ => some [⟨"a", "a"⟩, ⟨"b", "b"⟩, ⟨"c", "c"⟩, ⟨"d", "d"⟩, ⟨"e", "e"⟩,
        ⟨"f", "f"⟩, ⟨"g", "g"⟩, ⟨"h", "h"⟩, ⟨"i", "i"⟩, ⟨"j", "j"⟩])
      (fun _ _ => none) []
      c9_lineups [("BOS", ["1", "2", "3"]), ("NYK", ["1", "2", "3"])] [] c9_game =
      ([], ⟨"NYK at BOS", some "missing_market_data"⟩) := by
  refine ⟨?_, ?_, ?_⟩
  · have := (processGame_gates_spec zero_model (fun _ => none) (fun _ _ => none) []
      [("BOS", ["a a"])] [] [] c9_game).2.1 (by decide)
    simpa [mk_matchup, c9_game] using this
  · have := (processGame_gates_spec zero_model (fun _ => none) (fun _ _ => none) []
      c9_lineups [] [] c9_game).2.2.1 (by decide) (by decide)
    simpa [mk_matchup, c9_game] using this
  · have := (processGame_gates_spec zero_model
      (fun _ => some [⟨"a", "a"⟩, ⟨"b", "b"⟩, ⟨"c", "c"⟩, ⟨"d", "d"⟩, ⟨"e", "e"⟩,
        ⟨"f", "f"⟩, ⟨"g", "g"⟩, ⟨"h", "h"⟩, ⟨"i", "i"⟩, ⟨"j", "j"⟩])
      (fun _ _ => none) []
      c9_lineups [("BOS", ["1", "2", "3"]), ("NYK", ["1", "2", "3"])] []
      c9_game).2.2.2 (by decide) (by decide) (by decide)
    simpa [mk_matchup, c9_game] using this

/-! ## C2: pick invariants -/

/-- The invariant claimed for every emitted pick. -/
def pick_ok (pk : BetPick) : Prop :=
  0 ≤ pk.projected_probability ∧ pk.projected_probability ≤ 1 ∧
  0 ≤ pk.implied_probability ∧ pk.implied_probability ≤ 1 ∧
  pk.edge = pk.projected_probability - pk.implied_probability ∧
  3/100 ≤ pk.edge

/-- The sample fraction the Monte-Carlo samplers return is a probability:
this justifies the `[0,1]` range hypotheses placed on the sampling
oracles. -/
theorem sample_fraction_bounds (sims : List ℚ) (line : ℚ) (h : sims ≠ []) :
    0 ≤ sample_fraction sims line ∧ sample_fraction sims line ≤ 1 := by
  unfold sample_fraction
  have hlen : 0 < (sims.length : ℚ) := by
    have := List.length_pos.mpr h
    exact_mod_cast this
  constructor
  · positivity
  · rw [div_le_one hlen]
    exact_mod_cast List.countP_le_length _

theorem implied_probability_bounds (o : ℤ) :
    0 ≤ implied_probability_from_american o ∧ implied_probability_from_american o ≤ 1 :=
  ⟨le_of_lt (implied_probability_pos o), implied_probability_le_one o⟩

theorem prob_over_normal_bounds {cdf : ℚ → ℚ} (hC : ∀ x, 0 ≤ cdf x ∧ cdf x ≤ 1)
    (mean sd line : ℚ) :
    0 ≤ prob_over_normal cdf mean sd line ∧ prob_over_normal cdf mean sd line ≤ 1 := by
  unfold prob_over_normal
  split_ifs with h
  · norm_num
  · obtain ⟨h0, h1⟩ := hC ((line - mean) / sd)
    constructor <;> linarith

theorem prob_under_normal_bounds {cdf : ℚ → ℚ} (hC : ∀ x, 0 ≤ cdf x ∧ cdf x ≤ 1)
    (mean sd line : ℚ) :
    0 ≤ 1 - prob_over_normal cdf mean sd line ∧
      1 - prob_over_normal cdf mean sd line ≤ 1 := by
  obtain ⟨h0, h1⟩ := prob_over_normal_bounds hC mean sd line
  constructor <;> linarith

theorem mk_bet_pick_ok {mu mt lo : String} {p impl : ℚ} {sc : Option String}
    {rs : List String} {rk : String} (h0 : 0 ≤ p) (h1 : p ≤ 1) (h2 : 0 ≤ impl)
    (h3 : impl ≤ 1) (he : 3/100 ≤ p - impl) :
    pick_ok (mk_bet_pick mu mt lo p impl sc rs rk) :=
  ⟨h0, h1, h2, h3, rfl, he⟩

theorem spread_pick_ok {M : ProbModel} {ctx : PickCtx} {title : String} {out : Outcome}
    {pk : BetPick} (hS : ∀ m l, 0 ≤ M.simSpread m l ∧ M.simSpread m l ≤ 1)
    (h : spread_pick M ctx title out = some pk) : pick_ok pk := by
  simp only [spread_pick] at h
  split_ifs at h
  all_goals injection h with h
  all_goals subst h
  all_goals exact (mk_bet_pick_ok (hS _ _).1 (hS _ _).2
    (implied_probability_bounds _).1 (implied_probability_bounds _).2 (by assumption))

theorem totals_pick_ok {M : ProbModel} {ctx : PickCtx} {title : String} {out : Outcome}
    {pk : BetPick} (hT : ∀ t l o, 0 ≤ M.simTotal t l o ∧ M.simTotal t l o ≤ 1)
    (h : totals_pick M ctx title out = some pk) : pick_ok pk := by
  simp only [totals_pick] at h
  split_ifs at h
  all_goals injection h with h
  all_goals subst h
  all_goals exact (mk_bet_pick_ok (hT _ _ _).1 (hT _ _ _).2
    (implied_probability_bounds _).1 (implied_probability_bounds _).2 (by assumption))

theorem h2h_pick_ok {M : ProbModel} {ctx : PickCtx} {title : String} {out : Outcome}
    {pk : BetPick} (hS : ∀ m l, 0 ≤ M.simSpread m l ∧ M.simSpread m l ≤ 1)
    (h : h2h_pick M ctx title out = some pk) : pick_ok pk := by
  simp only [h2h_pick] at h
  split_ifs at h
  all_goals injection h with h
  all_goals subst h
  all_goals exact (mk_bet_pick_ok (hS _ _).1 (hS _ _).2
    (implied_probability_bounds _).1 (implied_probability_bounds _).2 (by assumption))

theorem team_total_pick_ok {M : ProbModel} {ctx : PickCtx} {title : String}
    {out : Outcome} {pk : BetPick} (hC : ∀ x, 0 ≤ M.normCdf x ∧ M.normCdf x ≤ 1)
    (h : team_total_pick M ctx title out = some pk) : pick_ok pk := by
  simp only [team_total_pick] at h
  split_ifs at h
  all_goals injection h with h
  all_goals subst h
  all_goals refine (mk_bet_pick_ok ?_ ?_ (implied_probability_bounds _).1
    (implied_probability_bounds _).2 (by assumption))
  all_goals linarith [(prob_over_normal_bounds hC ctx.home_pts ((19 : ℚ)/2) (line_of out)).1,
    (prob_over_normal_bounds hC ctx.home_pts ((19 : ℚ)/2) (line_of out)).2,
    (prob_over_normal_bounds hC ctx.away_pts ((19 : ℚ)/2) (line_of out)).1,
    (prob_over_normal_bounds hC ctx.away_pts ((19 : ℚ)/2) (line_of out)).2]

theorem prop_pick_ok {M : ProbModel} {ctx : PickCtx} {title : String}
    {sm : String × String × String} {out : Outcome} {pk : BetPick}
    (hC : ∀ x, 0 ≤ M.normCdf x ∧ M.normCdf x ≤ 1)
    (h : prop_pick M ctx title sm out = some pk) : pick_ok pk := by
  simp only [prop_pick] at h
  rcases hfind : ctx.eligible.find? fun tp => tp.2 == str_trim out.description with
    _ | tp
  · rw [hfind] at h
    exact absurd h (by simp)
  · rw [hfind] at h
    simp only [] at h
    split_ifs at h
    all_goals injection h with h
    all_goals subst h
    all_goals refine (mk_bet_pick_ok ?_ ?_ (implied_probability_bounds _).1
      (implied_probability_bounds _).2 (by assumption))
    all_goals linarith [(prob_over_normal_bounds hC (M.form (str_trim out.description)
        tp.1 sm.1) (1 ⊔ M.form (str_trim out.description) tp.1 sm.2.1) (line_of out)).1,
      (prob_over_normal_bounds hC (M.form (str_trim out.description) tp.1 sm.1)
        (1 ⊔ M.form (str_trim out.description) tp.1 sm.2.1) (line_of out)).2]

theorem market_picks_ok {M : ProbModel} {ctx : PickCtx} {title : String} {mkt : Market}
    {pk : BetPick} (hS : ∀ m l, 0 ≤ M.simSpread m l ∧ M.simSpread m l ≤ 1)
    (hT : ∀ t l o, 0 ≤ M.simTotal t l o ∧ M.simTotal t l o ≤ 1)
    (hC : ∀ x, 0 ≤ M.normCdf x ∧ M.normCdf x ≤ 1)
    (h : pk ∈ market_picks M ctx title mkt) : pick_ok pk := by
  unfold market_picks at h
  split_ifs at h with h1 h2 h3 h4
  · obtain ⟨out, _, hout⟩ := List.mem_filterMap.mp h
    exact spread_pick_ok hS hout
  · obtain ⟨out, _, hout⟩ := List.mem_filterMap.mp h
    exact totals_pick_ok hT hout
  · obtain ⟨out, _, hout⟩ := List.mem_filterMap.mp h
    exact h2h_pick_ok hS hout
  · obtain ⟨out, _, hout⟩ := List.mem_filterMap.mp h
    exact team_total_pick_ok hC hout
  · rcases hm : prop_stat_map mkt.key with _ | sm
    · rw [hm] at h
      exact absurd h (by simp)
    · rw [hm] at h
      obtain ⟨out, _, hout⟩ := List.mem_filterMap.mp h
      exact prop_pick_ok hC hout

theorem event_picks_ok {M : ProbModel} {ctx : PickCtx} {e : Event} {pk : BetPick}
    (hS : ∀ m l, 0 ≤ M.simSpread m l ∧ M.simSpread m l ≤ 1)
    (hT : ∀ t l o, 0 ≤ M.simTotal t l o ∧ M.simTotal t l o ≤ 1)
    (hC : ∀ x, 0 ≤ M.normCdf x ∧ M.normCdf x ≤ 1)
    (h : pk ∈ event_picks M ctx e) : pick_ok pk := by
  obtain ⟨b, _, hb⟩ := List.mem_flatMap.mp h
  obtain ⟨mkt, _, hmkt⟩ := List.mem_flatMap.mp hb
  exact market_picks_ok hS hT hC hmkt

theorem processGame_picks_ok {M : ProbModel} {box : BoxFn} {stats : StatsFn}
    {injuries : InjMap} {lineups : LineupMap} {recent : RecentMap}
    {events : List (String × Event)} {g : Game} {pk : BetPick}
    (hS : ∀ m l, 0 ≤ M.simSpread m l ∧ M.simSpread m l ≤ 1)
    (hT : ∀ t l o, 0 ≤ M.simTotal t l o ∧ M.simTotal t l o ≤ 1)
    (hC : ∀ x, 0 ≤ M.normCdf x ∧ M.normCdf x ≤ 1)
    (h : pk ∈ (processGame M box stats injuries lineups recent events g).1) :
    pick_ok pk := by
  by_cases h1 : ((lineups.lookup g.home_team).getD []).length < 5 ∨
      ((lineups.lookup g.away_team).getD []).length < 5
  · have he : processGame M box stats injuries lineups recent events g =
        ([], ⟨mk_matchup g, some "insufficient_lineup_data"⟩) := by
      simp only [processGame]
      rw [if_pos h1]
    rw [he] at h
    exact absurd h (by simp)
  · by_cases h2 : (eligible_players box injuries recent
        [(g.home_team, (lineups.lookup g.home_team).getD []),
         (g.away_team, (lineups.lookup g.away_team).getD [])]).length < 8
    · have he : processGame M box stats injuries lineups recent events g =
          ([], ⟨mk_matchup g, some "insufficient_active_players"⟩) := by
        simp only [processGame]
        rw [if_neg h1, if_pos h2]
      rw [he] at h
      exact absurd h (by simp)
    · rcases hev : events.lookup (g.away_team ++ "@" ++ g.home_team) with _ | event
      · have he : processGame M box stats injuries lineups recent events g =
            ([], ⟨mk_matchup g, some "missing_market_data"⟩) := by
          simp only [processGame]
          rw [if_neg h1, if_neg h2, hev]
        rw [he] at h
        exact absurd h (by simp)
      · have he : (processGame M box stats injuries lineups recent events g).1 =
            event_picks M
              { matchup := mk_matchup g
                home_team := g.home_team
                away_team := g.away_team
                home_name := event.home_team
                spread := (project_game stats g.home_team g.away_team).projected_spread_home
                total := (project_game stats g.home_team g.away_team).projected_total
                home_pts := (project_game stats g.home_team g.away_team).projected_home_pts
                away_pts := (project_game stats g.home_team g.away_team).projected_away_pts
                eligible := eligible_players box injuries recent
                  [(g.home_team, (lineups.lookup g.home_team).getD []),
                   (g.away_team, (lineups.lookup g.away_team).getD [])] } event := by
          simp only [processGame]
          rw [if_neg h1, if_neg h2, hev]
        rw [he] at h
        exact event_picks_ok hS hT hC h

/-- C2: every pick appended to the candidate pool (across the spread,
total, moneyline, team-total and player-prop market loops of every game)
has probability fields in `[0,1]`, an `edge` field equal to
`projected − implied`, and was only appended because `edge ≥ 0.03` —
assuming only that the sampling/CDF oracles return probabilities in
`[0,1]`, which the sample-fraction and `(1+erf)/2` computations guarantee. -/
theorem report_picks_invariant (M : ProbModel) (box : BoxFn) (stats : StatsFn)
    (injuries : InjMap) (lineups : LineupMap) (recent : RecentMap)
    (events : List (String × Event)) (games : List Game)
    (hS : ∀ m l, 0 ≤ M.simSpread m l ∧ M.simSpread m l ≤ 1)
    (hT : ∀ t l o, 0 ≤ M.simTotal t l o ∧ M.simTotal t l o ≤ 1)
    (hC : ∀ x, 0 ≤ M.normCdf x ∧ M.normCdf x ≤ 1) :
    ∀ pk ∈ report_picks M box stats injuries lineups recent events games,
      pick_ok pk := by
  intro pk h
  unfold report_picks at h
  obtain ⟨g, _, hg⟩ := List.mem_flatMap.mp h
  exact processGame_picks_ok hS hT hC hg

/-! ## C2 witness setup -/

/-- Oracle model for the C2 witness: the spread sampler always returns 1
(every sample covers), the others 1/2. -/
def c2_model : ProbModel :=
  ⟨fun _ _ => 1, fun _ _ _ => 1/2, fun _ => 1/2, fun _ _ _ => 0⟩

def stats0 : StatsFn := fun _ _ => none

def c2_box : BoxFn :=
  fun _ => some [⟨"a", "a"⟩, ⟨"b", "b"⟩, ⟨"c", "c"⟩, ⟨"d", "d"⟩, ⟨"e", "e"⟩,
    ⟨"f", "f"⟩, ⟨"g", "g"⟩, ⟨"h", "h"⟩, ⟨"i", "i"⟩, ⟨"j", "j"⟩]

def c2_recent : RecentMap := [("BOS", ["1", "2", "3"]), ("NYK", ["1", "2", "3"])]

def c2_out : Outcome := ⟨"Boston Celtics", "", none, some (-110)⟩

def c2_event : Event :=
  ⟨"Boston Celtics", "New York Knicks", some "2026-10-12T23:00:00Z",
    [⟨"DK", [⟨"h2h", [c2_out]⟩]⟩]⟩

def c2_picks : List BetPick :=
  report_picks c2_model c2_box stats0 [] c9_lineups c2_recent
    (odds_events_by_matchup [c2_event]) [c9_game]

/-- The pick context `processGame` builds for the witness game. -/
def c2_ctx : PickCtx :=
  { matchup := mk_matchup c9_game
    home_team := c9_game.home_team
    away_team := c9_game.away_team
    home_name := c2_event.home_team
    spread := (project_game stats0 c9_game.home_team c9_game.away_team).projected_spread_home
    total := (project_game stats0 c9_game.home_team c9_game.away_team).projected_total
    home_pts := (project_game stats0 c9_game.home_team c9_game.away_team).projected_home_pts
    away_pts := (project_game stats0 c9_game.home_team c9_game.away_team).projected_away_pts
    eligible := eligible_players c2_box [] c2_recent
      [(c9_game.home_team, (c9_lineups.lookup c9_game.home_team).getD []),
       (c9_game.away_team, (c9_lineups.lookup c9_game.away_team).getD [])] }

/-- The moneyline pick the witness run emits. -/
def c2_pick : BetPick :=
  mk_bet_pick c2_ctx.matchup ("Moneyline: " ++ c2_out.name)
    ("DK" ++ " (" ++ toString (price_of c2_out) ++ ")") 1
    (implied_probability_from_american (price_of c2_out)) (some (score_str c2_ctx))
    ["Win-probability simulation exceeds implied probability",
     "Last-10 net-rating differential supports side",
     "Home-court and efficiency adjustment included"]
    (if 170 < |price_of c2_out| then "High" else "Medium")

theorem c2_h2h : h2h_pick c2_model c2_ctx "DK" c2_out = some c2_pick := by
  simp only [h2h_pick, c2_model]
  rw [if_pos (by norm_num [price_of, c2_out, implied_probability_from_american])]
  rfl

theorem c2_market : c2_pick ∈ market_picks c2_model c2_ctx "DK" ⟨"h2h", [c2_out]⟩ := by
  simp only [market_picks, if_true]
  simp [List.filterMap_cons, c2_h2h]

theorem c2_in_event_picks : c2_pick ∈ event_picks c2_model c2_ctx c2_event := by
  unfold event_picks bookmaker_picks c2_event
  simp only [List.flatMap_cons, List.flatMap_nil, List.append_nil]
  exact c2_market

theorem c2_membership : c2_pick ∈ c2_picks := by
  unfold c2_picks report_picks
  simp only [List.flatMap_cons, List.flatMap_nil, List.append_nil]
  have hpg : (processGame c2_model c2_box stats0 [] c9_lineups c2_recent
      (odds_events_by_matchup [c2_event]) c9_game).1 =
      event_picks c2_model c2_ctx c2_event := by
    simp only [processGame]
    rw [if_neg (by decide), if_neg (by decide)]
    rw [show (odds_events_by_matchup [c2_event]).lookup
      (c9_game.away_team ++ "@" ++ c9_game.home_team) = some c2_event from by decide]
    rfl
  rw [hpg]
  exact c2_in_event_picks

/-- Witness for C2: a concrete run whose single game clears every gate and
whose lone moneyline outcome is appended; the theorem yields the pick
invariant for it. -/
theorem report_picks_invariant_witness : pick_ok c2_pick :=
  report_picks_invariant c2_model c2_box stats0 [] c9_lineups c2_recent
    (odds_events_by_matchup [c2_event]) [c9_game]
    (fun _ _ => by norm_num [c2_model]) (fun _ _ _ => by norm_num [c2_model])
    (fun _ => by norm_num [c2_model]) c2_pick c2_membership

/-! ## C4: ranking -/

theorem take_min_ten {α : Type} (l : List α) : l.take (min 10 l.length) = l.take 10 := by
  rcases le_total l.length 10 with h | h
  · rw [min_eq_right h, List.take_length, List.take_of_length_le h]
  · rw [min_eq_left h]

/-- C4: the ranked list is exactly the first 10 of the candidates sorted by
descending edge (the redundant re-truncation branch is a no-op), it is
sorted descending, its length is `min 10 |candidates|` (no padding), and
when at most 10 candidates qualify it is a permutation of all of them. -/
theorem ranked_picks_spec (picks : List BetPick) :
    ranked_picks picks = (sort_desc_edge picks).take 10 ∧
    List.Pairwise (fun a b : BetPick => b.edge ≤ a.edge) (ranked_picks picks) ∧
    (ranked_picks picks).length = min 10 picks.length ∧
    (picks.length ≤ 10 → (ranked_picks picks).Perm picks) := by
  have hperm : (sort_desc_edge picks).Perm picks :=
    List.mergeSort_perm picks fun a b => decide (b.edge ≤ a.edge)
  have htake : ranked_picks picks = (sort_desc_edge picks).take 10 := by
    simp only [ranked_picks]
    split_ifs with h
    · rw [List.length_take, take_min_ten]
    · rfl
  refine ⟨htake, ?_, ?_, ?_⟩
  · have hsorted : List.Pairwise
        (fun a b : BetPick => (decide (b.edge ≤ a.edge)) = true)
        (sort_desc_edge picks) := by
      apply List.sorted_mergeSort
      · intro a b c h1 h2
        simp only [decide_eq_true_eq] at *
        exact le_trans h2 h1
      · intro a b
        simpa using le_total b.edge a.edge
    rw [htake]
    exact ((hsorted.sublist (List.take_sublist 10 _)).imp fun h => of_decide_eq_true h)
  · rw [htake, List.length_take, List.Perm.length_eq hperm]
  · intro hlen
    rw [htake, List.take_of_length_le (by rw [List.Perm.length_eq hperm]; exact hlen)]
    exact hperm

def c4_pick_a : BetPick := mk_bet_pick "m1" "t1" "b1" 1 (1/2) none [] "Medium"

def c4_pick_b : BetPick := mk_bet_pick "m2" "t2" "b2" 1 (1/4) none [] "Medium"

/-- Witness for C4: with 2 ≤ 10 candidates the ranked list keeps both
(as a permutation), equals the take-10 of the sorted pool, and is sorted. -/
theorem ranked_picks_spec_witness :
    (ranked_picks [c4_pick_a, c4_pick_b]).Perm [c4_pick_a, c4_pick_b] ∧
    ranked_picks [c4_pick_a, c4_pick_b] =
      (sort_desc_edge [c4_pick_a, c4_pick_b]).take 10 ∧
    (ranked_picks [c4_pick_a, c4_pick_b]).length = 2 :=
  ⟨(ranked_picks_spec [c4_pick_a, c4_pick_b]).2.2.2 (by norm_num),
    (ranked_picks_spec [c4_pick_a, c4_pick_b]).1,
    by rw [(ranked_picks_spec [c4_pick_a, c4_pick_b]).2.2.1]; simp⟩

/-! ## C8: degraded mode -/

def fetch_failed {α : Type} : Except String α → Bool
  | Except.error _ => true
  | Except.ok _ => false

/-- The fetch-issue list accumulated by the seven `safe_fetch` wrappers. -/
def report_fetch_issues (F : FetchResults) (now : ℤ) : List String :=
  (safe_fetch "schedule" F.schedule ([], now)).2 ++
  (safe_fetch "injuries" F.injuries ([], now)).2 ++
  (safe_fetch "lineups" F.lineups ([], now)).2 ++
  (safe_fetch "odds" F.odds ([], now)).2 ++
  (safe_fetch "team_stats" F.team_stats (fun _ _ => none)).2 ++
  (safe_fetch "recent_games" F.recent_games []).2 ++
  (safe_fetch "market_signals" F.market_signals ⟨none, none, "unavailable"⟩).2

/-- The verifier issues as computed inside `generate_report`. -/
def report_verify_issues (parse : String → Option ℤ) (now run_date : ℤ)
    (F : FetchResults) : List String :=
  (verify_live_data parse now run_date
    (safe_fetch "schedule" F.schedule ([], now)).1.1
    (safe_fetch "injuries" F.injuries ([], now)).1.1
    (safe_fetch "lineups" F.lineups ([], now)).1.1
    (safe_fetch "odds" F.odds ([], now)).1.1
    [("schedule", (safe_fetch "schedule" F.schedule ([], now)).1.2),
     ("injuries", (safe_fetch "injuries" F.injuries ([], now)).1.2),
     ("lineups", (safe_fetch "lineups" F.lineups ([], now)).1.2),
     ("odds", (safe_fetch "odds" F.odds ([], now)).1.2)]).2

theorem safe_fetch_snd_ne_nil {α : Type} (label : String) (r : Except String α)
    (d : α) : (safe_fetch label r d).2 ≠ [] ↔ fetch_failed r = true := by
  cases r <;> simp [safe_fetch, fetch_failed]

/-- C8: `degraded_mode` is true iff at least one wrapped fetch raised (the
fetch-issue list is non-empty, which happens iff one of the seven fetches
failed) or the verifier reported at least one issue; it is false exactly
when no fetch failed and the verifier reported none. -/
theorem degraded_mode_spec (M : ProbModel) (box : BoxFn) (parse : String → Option ℤ)
    (now run_date : ℤ) (F : FetchResults) :
    ((generate_report_core M box parse now run_date F).degraded_mode = true ↔
      (report_fetch_issues F now ≠ [] ∨
        report_verify_issues parse now run_date F ≠ [])) ∧
    (report_fetch_issues F now ≠ [] ↔
      (fetch_failed F.schedule || fetch_failed F.injuries || fetch_failed F.lineups ||
        fetch_failed F.odds || fetch_failed F.team_stats || fetch_failed F.recent_games ||
        fetch_failed F.market_signals) = true) ∧
    ((generate_report_core M box parse now run_date F).degraded_mode = false ↔
      (report_fetch_issues F now = [] ∧
        report_verify_issues parse now run_date F = [])) := by
  have hd : (generate_report_core M box parse now run_date F).degraded_mode =
      (!((report_verify_issues parse now run_date F).isEmpty) ||
        !((report_fetch_issues F now).isEmpty)) := rfl
  refine ⟨?_, ?_, ?_⟩
  · rw [hd]
    cases hA : report_verify_issues parse now run_date F <;>
      cases hB : report_fetch_issues F now <;> simp [hA, hB]
  · simp only [ne_eq, report_fetch_issues, List.append_eq_nil, not_and_or,
      Bool.or_eq_true]
    simp [safe_fetch_snd_ne_nil, ← Bool.or_eq_true, or_assoc]
  · rw [hd]
    cases hA : report_verify_issues parse now run_date F <;>
      cases hB : report_fetch_issues F now <;> simp [hA, hB]
